import Mathlib

/-!
Shallow embedding of the Algolia PWA demo storefront overrides
(`overrides/app/pages/product-list/index.jsx` and the color/swatch partials
under `overrides/app/pages/algolia-product-list/partials/`), together with
theorems checking the specification's claims against the code.

JavaScript `null`/`undefined` is modelled as `Option`, JS array helpers
(`find`, `filter`, spread) as the corresponding `List` operations, and the
typed failures thrown by the page as an inductive type.
-/

namespace AlgoliaPwa

/-! ### Color variants (`algolia-product-colors.jsx`, `algolia-product-swatch.jsx`) -/

/-- A color-variant record as carried in a hit's `colorVariations` array.
Only the fields inspected by `sortColorVariations` and the link builder
are kept. -/
structure ColorVariant where
  color : String
  colorCode : String
deriving DecidableEq

/-- `sortColorVariations` from `algolia-product-colors.jsx` lines 41-47
(identical in `algolia-product-swatch.jsx`): returns `[]` when
`colorVariations` is null or undefined; otherwise prepends the result of
`find` — which is `undefined`, i.e. `none`, when no variant carries the
product's color — to the variants whose color differs from the product's,
kept in source order. -/
def sortColorVariations (productColor : String)
    (colorVariations : Option (List ColorVariant)) : List (Option ColorVariant) :=
  match colorVariations with
  | none => []
  | some cvs =>
      cvs.find? (fun c => c.color == productColor) ::
        (cvs.filter (fun c => !(c.color == productColor))).map some

/-- When exactly one element satisfies `p`, dropping the satisfying element
shortens the list by one. -/
theorem length_filter_not_of_countP_one {α : Type} (p : α → Bool) (l : List α)
    (h : l.countP p = 1) : (l.filter (fun x => !(p x))).length + 1 = l.length := by
  induction l with
  | nil => simp [List.countP_nil] at h
  | cons x xs ih =>
    rw [List.countP_cons] at h
    by_cases hx : p x = true
    · have hxs : xs.countP p = 0 := by
        rw [if_pos hx] at h
        omega
      have hall : ∀ a ∈ xs, ¬ p a = true := List.countP_eq_zero.mp hxs
      have hfilter : xs.filter (fun x => !(p x)) = xs := by
        rw [List.filter_eq_self]
        intro a ha
        simp [hall a ha]
      simp [List.filter_cons, hx, hfilter]
    · have hxs : xs.countP p = 1 := by
        rw [if_neg hx] at h
        omega
      have hx' : (!(p x)) = true := by simp [hx]
      simp only [List.filter_cons, hx', if_pos, List.length_cons]
      rw [← ih hxs]

/-- Claim C1 (amended): for a product whose color occurs exactly once among
its color variants, `sortColorVariations` returns a list of the same length
as the variant list, its first element is the variant carrying the
product's color, and the remaining elements are the other variants in
source order. (As originally stated the claim fails: when the product's
color is absent the result gains an `undefined` head and has length N+1,
see the counterexample.) -/
theorem sortColorVariations_sorted (productColor : String) (cvs : List ColorVariant)
    (h : cvs.countP (fun c => c.color == productColor) = 1) :
    (sortColorVariations productColor (some cvs)).length = cvs.length ∧
    (∃ v : ColorVariant,
      (sortColorVariations productColor (some cvs)).head? = some (some v) ∧
      v.color = productColor) ∧
    (sortColorVariations productColor (some cvs)).tail =
      (cvs.filter (fun c => !(c.color == productColor))).map some := by
  refine ⟨?_, ?_, rfl⟩
  · show ((cvs.filter (fun c => !(c.color == productColor))).map some).length + 1 = cvs.length
    rw [List.length_map]
    exact length_filter_not_of_countP_one _ cvs h
  · have hne : ¬ (∀ x ∈ cvs, ¬ (x.color == productColor) = true) := by
      intro hall
      have : cvs.countP (fun c => c.color == productColor) = 0 :=
        List.countP_eq_zero.mpr hall
      omega
    have hfind : cvs.find? (fun c => c.color == productColor) ≠ none := by
      intro hnone
      exact hne (List.find?_eq_none.mp hnone)
    obtain ⟨v, hv⟩ := Option.ne_none_iff_exists'.mp hfind
    refine ⟨v, ?_, ?_⟩
    · show some (cvs.find? (fun c => c.color == productColor)) = some (some v)
      rw [hv]
    · have := List.find?_some hv
      exact eq_of_beq this

/-- Witness for C1: a concrete product (color "blue") whose color occurs
exactly once among two variants. -/
theorem sortColorVariations_sorted_witness :
    ([⟨"blue", "b"⟩, ⟨"red", "r"⟩] : List ColorVariant).countP
        (fun c => c.color == "blue") = 1 ∧
    ((sortColorVariations "blue" (some [⟨"blue", "b"⟩, ⟨"red", "r"⟩])).length =
        ([⟨"blue", "b"⟩, ⟨"red", "r"⟩] : List ColorVariant).length ∧
      (∃ v : ColorVariant,
        (sortColorVariations "blue" (some [⟨"blue", "b"⟩, ⟨"red", "r"⟩])).head? =
            some (some v) ∧
        v.color = "blue") ∧
      (sortColorVariations "blue" (some [⟨"blue", "b"⟩, ⟨"red", "r"⟩])).tail =
        (([⟨"blue", "b"⟩, ⟨"red", "r"⟩] : List ColorVariant).filter
            (fun c => !(c.color == "blue"))).map some) :=
  ⟨by decide, sortColorVariations_sorted "blue" [⟨"blue", "b"⟩, ⟨"red", "r"⟩] (by decide)⟩

/-- Counterexample to C1 as stated: a product displayed in color "blue"
with a single variant of color "red". The variant list has length 1, but
`sortColorVariations` returns a two-element list whose head is the
`undefined` produced by the failed `find`. -/
theorem sortColorVariations_length_counterexample :
    ([⟨"red", "r"⟩] : List ColorVariant).length = 1 ∧
    (sortColorVariations "blue" (some [⟨"red", "r"⟩])).length = 2 ∧
    (sortColorVariations "blue" (some [⟨"red", "r"⟩])).head? = some none := by
  refine ⟨rfl, ?_, ?_⟩ <;> decide

/-! ### Category-lookup error handling (`product-list/index.jsx` lines 216-226) -/

/-- The typed page-level failures thrown by the product-list page.
`HTTPNotFound` and `HTTPError` are the PWA-kit SDK error classes; only the
constructor used and the message passed to it matter here. -/
inductive PageFailure where
  | HTTPNotFound (message : String)
  | HTTPError (message : String)
deriving DecidableEq

/-- The `switch` on `errorStatus = error?.response?.status`: `undefined`
breaks with no failure, `404` throws `HTTPNotFound('Category Not Found.')`,
and the `default` arm throws an `HTTPError` whose message interpolates the
status code. -/
def handleCategoryError (errorStatus : Option Nat) : Option PageFailure :=
  match errorStatus with
  | none => none
  | some s =>
      if s = 404 then some (PageFailure.HTTPNotFound "Category Not Found.")
      else some (PageFailure.HTTPError ("HTTP Error " ++ toString s ++ " occurred."))

/-- Claim C2: no error status raises no failure; status 404 raises the
typed not-found failure; any other defined status raises the typed generic
failure whose message carries that status code. -/
theorem handleCategoryError_taxonomy :
    handleCategoryError none = none ∧
    handleCategoryError (some 404) =
      some (PageFailure.HTTPNotFound "Category Not Found.") ∧
    ∀ s : Nat, s ≠ 404 →
      handleCategoryError (some s) =
        some (PageFailure.HTTPError ("HTTP Error " ++ toString s ++ " occurred.")) := by
  refine ⟨rfl, rfl, ?_⟩
  intro s hs
  simp [handleCategoryError, hs]

/-- Witness for C2 at the concrete status 500. -/
theorem handleCategoryError_taxonomy_witness :
    (500 : Nat) ≠ 404 ∧
    handleCategoryError (some 500) =
      some (PageFailure.HTTPError ("HTTP Error " ++ toString (500 : Nat) ++ " occurred.")) :=
  ⟨by decide, handleCategoryError_taxonomy.2.2 500 (by decide)⟩

/-! ### Server response handling (`product-list/index.jsx` lines 228-231) -/

/-- An HTTP response as the page sees it: status code, body, and a header
map with unique field names. -/
structure HttpResponse where
  status : Nat
  body : String
  headers : List (String × String)
deriving DecidableEq

/-- `res.set(field, value)`: stores the header under the field name,
replacing the existing entry when present and appending otherwise. -/
def setHeaderList (k v : String) : List (String × String) → List (String × String)
  | [] => [(k, v)]
  | (k', v') :: rest =>
      if k' == k then (k, v) :: rest else (k', v') :: setHeaderList k v rest

/-- `res.set` on the whole response: only the header map changes. -/
def setResponseHeader (r : HttpResponse) (k v : String) : HttpResponse :=
  { r with headers := setHeaderList k v r.headers }

/-- The response-handling phase of a server-side render (lines 216-231 in
order): the category-error `switch` runs first and may throw; otherwise,
when a server response object is present (`if (res)`), its `Cache-Control`
header is set to `max-age=${MAX_CACHE_AGE}`. `MAX_CACHE_AGE` is imported
from the base retail app, outside this repository, so its value is a
parameter here; the page uses it as a fixed constant. -/
def pageResponsePhase (maxCacheAge : Nat) (errorStatus : Option Nat)
    (res : Option HttpResponse) : Except PageFailure (Option HttpResponse) :=
  match handleCategoryError errorStatus with
  | some f => Except.error f
  | none => Except.ok (res.map (fun r =>
      setResponseHeader r "Cache-Control" ("max-age=" ++ toString maxCacheAge)))

/-- Looking up the key just set yields the new value. -/
theorem lookup_setHeaderList_self (k v : String) (hs : List (String × String)) :
    (setHeaderList k v hs).lookup k = some v := by
  induction hs with
  | nil => simp [setHeaderList, List.lookup]
  | cons p rest ih =>
    by_cases hk : p.1 = k
    · simp [setHeaderList, hk, List.lookup]
    · have hbeq : (p.1 == k) = false := by simpa using hk
      have hbeq' : (k == p.1) = false := by simpa using Ne.symm hk
      simp [setHeaderList, hbeq, List.lookup, hbeq', ih]

/-- Looking up any other key is unchanged by `setHeaderList`. -/
theorem lookup_setHeaderList_other (k v k' : String) (hk : k' ≠ k)
    (hs : List (String × String)) :
    (setHeaderList k v hs).lookup k' = hs.lookup k' := by
  have hkk : (k' == k) = false := by simpa using hk
  induction hs with
  | nil => simp [setHeaderList, List.lookup, hkk]
  | cons p rest ih =>
    by_cases hpk : p.1 = k
    · simp [setHeaderList, hpk, List.lookup, hkk]
    · have hbeq : (p.1 == k) = false := by simpa using hpk
      simp only [setHeaderList, hbeq, Bool.false_eq_true, if_false, List.lookup]
      by_cases hp' : k' = p.1
      · simp [hp']
      · have hb' : (k' == p.1) = false := by simpa using hp'
        simp [hb', ih]

/-- Claim C8: on a successful server-side render (a response object present
and no error status), the render sets the response's `Cache-Control` header
to the fixed max-age string, leaves every other header unchanged, and
changes no other part of the response (status and body). -/
theorem pageResponsePhase_cacheControl (maxCacheAge : Nat) (r : HttpResponse) :
    ∃ r' : HttpResponse,
      pageResponsePhase maxCacheAge none (some r) = Except.ok (some r') ∧
      r'.headers.lookup "Cache-Control" = some ("max-age=" ++ toString maxCacheAge) ∧
      r'.status = r.status ∧
      r'.body = r.body ∧
      ∀ k : String, k ≠ "Cache-Control" → r'.headers.lookup k = r.headers.lookup k := by
  refine ⟨setResponseHeader r "Cache-Control" ("max-age=" ++ toString maxCacheAge),
    rfl, ?_, rfl, rfl, ?_⟩
  · exact lookup_setHeaderList_self _ _ _
  · intro k hk
    exact lookup_setHeaderList_other _ _ _ hk _

/-- Witness for C8 at a concrete response carrying one unrelated header. -/
theorem pageResponsePhase_cacheControl_witness :
    ∃ r' : HttpResponse,
      pageResponsePhase 900 none (some ⟨200, "page", [("X-Custom", "1")]⟩) =
        Except.ok (some r') ∧
      r'.headers.lookup "Cache-Control" = some ("max-age=" ++ toString (900 : Nat)) ∧
      r'.status = (200 : Nat) ∧
      r'.body = "page" ∧
      ∀ k : String, k ≠ "Cache-Control" →
        r'.headers.lookup k = [("X-Custom", "1")].lookup k :=
  pageResponsePhase_cacheControl 900 ⟨200, "page", [("X-Custom", "1")]⟩

/-! ### Wishlist mutations (`product-list/index.jsx` lines 256-335) -/

/-- One item of the customer's wishlist (`customerProductListItems`). -/
structure WishlistItem where
  id : String
  productId : String
deriving DecidableEq

/-- The wishlist object returned by `useWishList`. -/
structure Wishlist where
  id : String
  customerProductListItems : List WishlistItem
deriving DecidableEq

/-- How a wishlist mutation settles, as seen by the react-query callbacks. -/
inductive MutationOutcome where
  | success
  | error
deriving DecidableEq

/-- The first statement of both `addItemToWishlist` (line 259) and
`removeItemFromWishlist` (line 305):
`setWishlistLoading([...wishlistLoading, product.productId])`. -/
def toggleFavouriteStart (wishlistLoading : List String) (productId : String) :
    List String :=
  wishlistLoading ++ [productId]

/-- The `onSettled` callback shared by both wishlist mutations (lines
297-299 and 330-332): it runs after the mutation settles, on success and on
error alike, and replaces `wishlistLoading` with the render-time list
captured by the closure, filtered to drop the toggled product id.
`onError` and `onSuccess` only emit a toast and do not touch
`wishlistLoading`. -/
def toggleFavouriteSettle (capturedWishlistLoading : List String) (productId : String)
    (outcome : MutationOutcome) : List String :=
  match outcome with
  | MutationOutcome.success =>
      capturedWishlistLoading.filter (fun id => !(id == productId))
  | MutationOutcome.error =>
      capturedWishlistLoading.filter (fun id => !(id == productId))

/-- Claim C3: toggling favourite first adds the product's id to the
`wishlistLoading` list, and after the mutation settles — with either
outcome — the product's id is absent from the `wishlistLoading` list. -/
theorem wishlistLoading_toggle_lifecycle (st : List String) (pid : String)
    (outcome : MutationOutcome) :
    pid ∈ toggleFavouriteStart st pid ∧
    pid ∉ toggleFavouriteSettle st pid outcome := by
  constructor
  · simp [toggleFavouriteStart]
  · cases outcome <;>
      simp [toggleFavouriteSettle, List.mem_filter]

/-! ### The `removeItemFromWishlist` lookup (`product-list/index.jsx` lines 304-315) -/

/-- What `removeItemFromWishlist` does up to and including issuing the
delete mutation: it reads
`wishlist.customerProductListItems.find((i) => i.productId === product.productId).id`;
when the `find` misses, `.id` is read off `undefined` and the function
throws a TypeError before `deleteCustomerProductListItem` is called;
otherwise the delete mutation is issued with
`parameters: {customerId, listId, itemId}`. -/
inductive RemoveOutcome where
  | throwsBeforeMutation
  | mutationIssued (customerId : String) (listId : String) (itemId : String)
deriving DecidableEq

/-- The item-id lookup and mutation dispatch of `removeItemFromWishlist`. -/
def removeItemLookup (customerId : String) (wishlist : Wishlist) (productId : String) :
    RemoveOutcome :=
  match wishlist.customerProductListItems.find? (fun i => i.productId == productId) with
  | none => RemoveOutcome.throwsBeforeMutation
  | some item => RemoveOutcome.mutationIssued customerId wishlist.id item.id

/-- Claim C9: when the wishlist contains an item for the toggled product,
the lookup succeeds and the delete mutation is issued with that item's id;
otherwise `removeItemFromWishlist` throws before any mutation request is
sent. -/
theorem removeItemLookup_precondition (customerId : String) (wl : Wishlist)
    (pid : String) :
    ((∃ i ∈ wl.customerProductListItems, i.productId = pid) →
      ∃ item : WishlistItem,
        wl.customerProductListItems.find? (fun i => i.productId == pid) = some item ∧
        item.productId = pid ∧
        removeItemLookup customerId wl pid =
          RemoveOutcome.mutationIssued customerId wl.id item.id) ∧
    ((¬ ∃ i ∈ wl.customerProductListItems, i.productId = pid) →
      removeItemLookup customerId wl pid = RemoveOutcome.throwsBeforeMutation) := by
  constructor
  · intro hmem
    have hfind : wl.customerProductListItems.find? (fun i => i.productId == pid) ≠ none := by
      intro hnone
      have hall := List.find?_eq_none.mp hnone
      obtain ⟨i, hi, hip⟩ := hmem
      exact hall i hi (by simpa using hip)
    obtain ⟨item, hitem⟩ := Option.ne_none_iff_exists'.mp hfind
    have hp : (item.productId == pid) = true := by
      have hp0 := List.find?_some hitem
      simpa using hp0
    refine ⟨item, hitem, eq_of_beq hp, ?_⟩
    simp [removeItemLookup, hitem]
  · intro hnone
    have hall : ∀ i ∈ wl.customerProductListItems, ¬ (i.productId == pid) = true := by
      intro i hi hip
      exact hnone ⟨i, hi, eq_of_beq hip⟩
    simp [removeItemLookup, List.find?_eq_none.mpr hall]

/-- Witness for C9: a wishlist holding the toggled product. -/
theorem removeItemLookup_precondition_witness :
    ∃ item : WishlistItem,
      (Wishlist.mk "wl1" [⟨"item1", "p1"⟩]).customerProductListItems.find?
          (fun i => i.productId == "p1") = some item ∧
      item.productId = "p1" ∧
      removeItemLookup "c1" (Wishlist.mk "wl1" [⟨"item1", "p1"⟩]) "p1" =
        RemoveOutcome.mutationIssued "c1" "wl1" item.id :=
  (removeItemLookup_precondition "c1" (Wishlist.mk "wl1" [⟨"item1", "p1"⟩]) "p1").1
    ⟨⟨"item1", "p1"⟩, by simp, rfl⟩

/-! ### Refinement disallow list (`product-list/index.jsx` lines 94-96, 209-214) -/

/-- `REFINEMENT_DISALLOW_LIST` (line 96). -/
def REFINEMENT_DISALLOW_LIST : List String := ["c_isNew"]

/-- A refinement as carried in `productSearchResult.refinements`; only the
`attributeId` field is inspected by the disallow filter. -/
structure Refinement where
  attributeId : String
  label : String
deriving DecidableEq

/-- The disallow-list application (lines 209-214): when the search result
carries a `refinements` array, it is replaced by the array filtered to drop
every refinement whose `attributeId` is in `REFINEMENT_DISALLOW_LIST`. -/
def applyDisallowList (refinements : Option (List Refinement)) :
    Option (List Refinement) :=
  match refinements with
  | none => none
  | some rs =>
      some (rs.filter (fun r => !(REFINEMENT_DISALLOW_LIST.contains r.attributeId)))

/-- Claim C4: a refinement appears in the refinements used for display
exactly when it appears in the upstream response and its `attributeId` is
not in the deny-list — deny-listed refinements are removed, all others are
kept. -/
theorem applyDisallowList_mem (rs : List Refinement) (r : Refinement) :
    r ∈ ((applyDisallowList (some rs)).getD []) ↔
      r ∈ rs ∧ r.attributeId ∉ REFINEMENT_DISALLOW_LIST := by
  simp [applyDisallowList, List.mem_filter, List.contains_iff_exists_mem_beq]

/-! ### The hit renderer (`product-list/index.jsx` lines 495-541) -/

/-- One search hit; only the id matters to the tile wiring. -/
structure Hit where
  id : String
deriving DecidableEq

/-- The props the `hitComponent` passes to `ProductTile` that concern the
favourite feature. -/
structure TileProps where
  productId : String
  enableFavourite : Bool
  isFavourite : Bool
deriving DecidableEq

/-- The `hitComponent` passed to `AlgoliaHits` (lines 497-540): it sets
`const isInWishlist = false` and renders the tile with
`isFavourite={isInWishlist}` and `enableFavourite={true}`, taking no
account of the wishlist contents. -/
def hitComponentProps (hit : Hit) (wishlist : Wishlist) : TileProps :=
  let isInWishlist := false
  { productId := hit.id, enableFavourite := true, isFavourite := isInWishlist }

/-- The wishlist mutation chosen by a toggle. -/
inductive WishlistAction where
  | addItemToWishlist
  | removeItemFromWishlist
deriving DecidableEq

/-- The `onFavouriteToggle` callback (lines 523-528): routes to
`addItemToWishlist` when called with `true` and to
`removeItemFromWishlist` otherwise. -/
def onFavouriteToggle (isFavourite : Bool) : WishlistAction :=
  if isFavourite then WishlistAction.addItemToWishlist
  else WishlistAction.removeItemFromWishlist

/-- Claim C10: every tile is rendered with `isFavourite = false` whatever
the wishlist contains, so a first toggle — which flips the rendered value —
invokes the callback with `true` and routes to the add action. -/
theorem hitComponent_isFavourite_false (hit : Hit) (wl : Wishlist) :
    (hitComponentProps hit wl).isFavourite = false ∧
    onFavouriteToggle (!(hitComponentProps hit wl).isFavourite) =
      WishlistAction.addItemToWishlist :=
  ⟨rfl, rfl⟩

/-! ### `resetFilters` (`product-list/index.jsx` lines 337-348) -/

/-- The search parameters parsed from the URL by the shared
`useSearchParams` helper: the free-text query when present, pagination
limit and offset, the sort id, and the list of refinement constraints. -/
structure SearchParams where
  q : Option String
  limit : Nat
  offset : Nat
  sort : Option String
  refine : List String
deriving DecidableEq

/-- `resetFilters`: copies the current search params with `refine` emptied
(`{...searchParams, refine: []}`), then navigates to
`/search?...` when a free-text search is active and to
`/category/{categoryId}?...` otherwise, serializing the new params with the
shared `stringifySearchParams` helper (an external collaborator, so a
parameter here). -/
def resetFilters (isSearchActive : Bool) (categoryId : String)
    (searchParams : SearchParams) (stringifySearchParams : SearchParams → String) :
    String :=
  let newSearchParams := { searchParams with refine := [] }
  if isSearchActive then "/search?" ++ stringifySearchParams newSearchParams
  else "/category/" ++ categoryId ++ "?" ++ stringifySearchParams newSearchParams

/-- Claim C5: the navigation target serializes the current search params
with the refine list emptied and every other parameter — the query
included — unchanged, under the `/search` path when a free-text search is
active and under `/category/{categoryId}` otherwise. -/
theorem resetFilters_preserves_scope (isSearchActive : Bool) (categoryId : String)
    (sp : SearchParams) (stringify : SearchParams → String) :
    resetFilters isSearchActive categoryId sp stringify =
      (if isSearchActive then "/search?" else "/category/" ++ categoryId ++ "?") ++
        stringify { sp with refine := [] } ∧
    ({ sp with refine := [] } : SearchParams).refine = [] ∧
    ({ sp with refine := [] } : SearchParams).q = sp.q ∧
    ({ sp with refine := [] } : SearchParams).limit = sp.limit ∧
    ({ sp with refine := [] } : SearchParams).offset = sp.offset ∧
    ({ sp with refine := [] } : SearchParams).sort = sp.sort := by
  refine ⟨?_, rfl, rfl, rfl, rfl, rfl⟩
  cases isSearchActive <;> rfl

/-! ### Scope selection (`product-list/index.jsx` lines 165-171, 198-207, 239-240) -/

/-- JavaScript truthiness of a nullable string (`!!x`): `null`/`undefined`
and the empty string are falsy. -/
def jsTruthyStr (x : Option String) : Bool :=
  match x with
  | none => false
  | some s => !(s == "")

/-- `isSearch` (line 167): `!!searchQuery`, where
`searchQuery = urlParams.get('q')` is `null` when `q` is absent. -/
def isSearch (searchQuery : Option String) : Bool :=
  jsTruthyStr searchQuery

/-- The `enabled` option of the `useCategory` query (line 205):
`!isSearch && !!params.categoryId`. -/
def categoryLookupEnabled (searchQuery : Option String) (categoryId : Option String) :
    Bool :=
  !(isSearch searchQuery) && jsTruthyStr categoryId

/-- `query` (line 239): `searchQuery ?? ''` — only `null`/`undefined` is
replaced by the empty string. -/
def queryText (searchQuery : Option String) : String :=
  match searchQuery with
  | none => ""
  | some s => s

/-- `filters` (line 240): `!isLoading && category?.id` selects the
interpolated filter string, otherwise the empty string. `categoryId` here
is the id of the category returned by the lookup (`category?.id`). -/
def filtersString (isLoading : Bool) (categoryId : Option String) : String :=
  match categoryId with
  | none => ""
  | some cid => if !isLoading && !(cid == "") then "categories.id:" ++ cid else ""

/-- Claim C6: the presence of a non-empty `q` alone decides the scope. The
search scope and an enabled category lookup are never both active; a
non-empty `q` makes the page a search page — category lookup disabled, the
query text driving the search; an absent `q` makes it a category page — no
free-text query applied and the looked-up category id driving the filter
string. -/
theorem scope_exclusive (searchQuery : Option String) (categoryId : Option String) :
    (¬ (isSearch searchQuery = true ∧
        categoryLookupEnabled searchQuery categoryId = true)) ∧
    (∀ s : String, searchQuery = some s → s ≠ "" →
      isSearch searchQuery = true ∧
      categoryLookupEnabled searchQuery categoryId = false ∧
      queryText searchQuery = s) ∧
    (searchQuery = none →
      isSearch searchQuery = false ∧
      queryText searchQuery = "" ∧
      ∀ cid : String, cid ≠ "" →
        filtersString false (some cid) = "categories.id:" ++ cid) := by
  refine ⟨?_, ?_, ?_⟩
  · rintro ⟨hs, hc⟩
    simp [categoryLookupEnabled, hs] at hc
  · rintro s rfl hs
    have hb : (s == "") = false := by simpa using hs
    exact ⟨by simp [isSearch, jsTruthyStr, hb],
      by simp [categoryLookupEnabled, isSearch, jsTruthyStr, hb],
      rfl⟩
  · rintro rfl
    refine ⟨rfl, rfl, ?_⟩
    intro cid hcid
    have hb : (cid == "") = false := by simpa using hcid
    simp [filtersString, hb]

/-- Witness for C6: a non-empty query "shoes" on the one hand, an absent
query with category id "mens" on the other. -/
theorem scope_exclusive_witness :
    (some "shoes" = some "shoes" ∧ "shoes" ≠ "" ∧
      isSearch (some "shoes") = true ∧
      categoryLookupEnabled (some "shoes") (some "mens") = false ∧
      queryText (some "shoes") = "shoes") ∧
    ("mens" ≠ "" ∧
      isSearch none = false ∧
      queryText none = "" ∧
      filtersString false (some "mens") = "categories.id:" ++ "mens") := by
  have h1 := (scope_exclusive (some "shoes") (some "mens")).2.1 "shoes" rfl (by decide)
  have h2 := (scope_exclusive none (some "mens")).2.2 rfl
  exact ⟨⟨rfl, by decide, h1.1, h1.2.1, h1.2.2⟩,
    ⟨by decide, h2.1, h2.2.1, h2.2.2 "mens" (by decide)⟩⟩

/-! ### Scroll resets (`product-list/index.jsx` lines 233-237 and 548) -/

/-- The user-visible events of the page's event loop that are relevant to
scrolling: the `isRefetching` flag of `useProductSearch` changing value
(which re-runs the effect with dependency `[isRefetching]`), a pagination
page change, a sort change, and a favourite toggle. -/
inductive PageEvent where
  | setRefetching (isRefetching : Bool)
  | pageChange
  | sortChange
  | favouriteToggle
deriving DecidableEq

/-- The page state the scroll behaviour depends on. -/
structure PageScrollState where
  isRefetching : Bool
deriving DecidableEq

/-- Whether a step of the event loop calls `window.scrollTo(0, 0)`. Two
sites do: the effect with dependency `[isRefetching]` (lines 233-237),
whose body `isRefetching && window.scrollTo(0, 0)` scrolls when the flag
has newly become `true`, and the `onPageChange` callback of
`AlgoliaPagination` (line 548), which always scrolls. -/
def scrollsToTop (st : PageScrollState) (e : PageEvent) : Bool :=
  match e with
  | PageEvent.setRefetching b => b && !st.isRefetching
  | PageEvent.pageChange => true
  | PageEvent.sortChange => false
  | PageEvent.favouriteToggle => false

/-- Whether a step is a transition into the refetching state. -/
def transitionIntoRefetching (st : PageScrollState) (e : PageEvent) : Bool :=
  match e with
  | PageEvent.setRefetching b => b && !st.isRefetching
  | PageEvent.pageChange => false
  | PageEvent.sortChange => false
  | PageEvent.favouriteToggle => false

/-- Counterexample to C7 as stated: a pagination page change while the page
is not refetching scrolls to the top without any transition into the
refetching state — `AlgoliaPagination`'s `onPageChange` scrolls
unconditionally. -/
theorem scrollsToTop_pageChange_counterexample :
    scrollsToTop ⟨false⟩ PageEvent.pageChange = true ∧
    transitionIntoRefetching ⟨false⟩ PageEvent.pageChange = false :=
  ⟨rfl, rfl⟩

/-- Claim C7 (amended): a step scrolls to the top exactly when it is a
transition into the refetching state or a pagination page change; no other
event scrolls. -/
theorem scrollsToTop_iff (st : PageScrollState) (e : PageEvent) :
    scrollsToTop st e = true ↔
      (transitionIntoRefetching st e = true ∨ e = PageEvent.pageChange) := by
  cases e <;> simp [scrollsToTop, transitionIntoRefetching]

end AlgoliaPwa
